import Mathlib

/-!
Verification of the node-addon-api binding layer (src/napi-inl.h) against its
natural-language specification.

The development shallowly embeds the C++ source: each `inline` function of
`napi-inl.h` that the claims touch becomes a Lean definition over an explicit
`AbiState` modelling the host ABI's observable state (GC roots, wrapped
instances, the pending exception slot, last-error info, and allocation
counters).  The raw `napi_*` entry points are external collaborators (spec §1:
"assumed correct/fixed/versioned"); they are modelled by Lean functions whose
doc comments state the documented ABI semantics they follow.  Host values are
modelled symbolically by `HVal`; a C `napi_value` (a possibly-null pointer) is
`Option HVal` with `none` for the null pointer.
-/

namespace NapiModel

/-- Kind of a host error object, as created by `napi_create_error`,
`napi_create_type_error` and `napi_create_range_error`. -/
inductive ErrKind where
  | generic
  | typeErrorKind
  | rangeErrorKind
  deriving DecidableEq, Repr

/-- Symbolic model of a host (JavaScript) value. -/
inductive HVal where
  | undef
  | nullv
  | strv (s : String)
  | errv (kind : ErrKind) (msg : String)
  | objv (id : Nat)
  | funcv (id : Nat)
  deriving DecidableEq, Repr

/-- A C `napi_value`: a possibly-null pointer to a host value.  `none` is the
null pointer (for example `Value()`'s default state, or the result of
dereferencing a collected weak reference). -/
abbrev NapiV := Option HVal

/-- The ABI status codes the modelled code inspects. -/
inductive NapiStatus where
  | ok
  | invalidArg
  | objectExpected
  | stringExpected
  | booleanExpected
  | numberExpected
  | genericFailure
  | pendingException
  deriving DecidableEq, Repr

/-- One GC root created through the ABI: the referent (`none` once the host GC
has collected it) and the explicit reference count. -/
structure RefSlot where
  referent : Option HVal
  count : Nat
  deriving DecidableEq, Repr

/-- Observable state of the host ABI as seen by the binding layer.
`createRefCalls` counts invocations of the root-creation entry point
`napi_create_reference`; `liveCallbackData` counts `CallbackData` heap
allocations minus deallocations (the source performs none); `liveInstances`
counts native `T` instances created by the constructor trampoline minus those
deleted by `FinalizeCallback`. -/
structure AbiState where
  refs : List (Nat × RefSlot)
  nextRef : Nat
  wraps : List (Nat × Nat)
  backRefs : List (Nat × Nat)
  nextInst : Nat
  liveInstances : Nat
  nextVal : Nat
  pending : Option HVal
  lastErrorCode : NapiStatus
  lastErrorMsg : Option String
  createRefCalls : Nat
  liveCallbackData : Nat
  deriving DecidableEq, Repr

/-- Lookup in a pointer-keyed association list (models the host's internal
tables keyed by `napi_ref` handles or object identities). -/
def alookup {α : Type} : Nat → List (Nat × α) → Option α
  | _, [] => none
  | k, (k1, v) :: rest => if k = k1 then some v else alookup k rest

/-- Replace the slot stored under a key (first occurrence). -/
def setRef : List (Nat × RefSlot) → Nat → RefSlot → List (Nat × RefSlot)
  | [], _, _ => []
  | (k, s0) :: rest, h, s => if k = h then (k, s) :: rest else (k, s0) :: setRef rest h s

/-- Remove the slot stored under a key (first occurrence). -/
def eraseRef : List (Nat × RefSlot) → Nat → List (Nat × RefSlot)
  | [], _ => []
  | (k, s0) :: rest, h => if k = h then rest else (k, s0) :: eraseRef rest h

/-- First of two optional host values (the C++ control flow "keep the already
pending exception, otherwise take the new one"). -/
def firstSome (a b : Option HVal) : Option HVal :=
  match a with
  | some p => some p
  | none => b

/-- Model of ABI `napi_is_exception_pending` (as used via
`Env::IsExceptionPending`, src/napi-inl.h:78): reports whether a host
exception is pending. -/
def napi_is_exception_pending (st : AbiState) : Bool :=
  st.pending.isSome

/-- Model of ABI `napi_get_and_clear_last_exception`: returns the pending host
exception (null if none) and clears the pending slot. -/
def napi_get_and_clear_last_exception (st : AbiState) : AbiState × NapiV :=
  ({ st with pending := none }, st.pending)

/-- Model of ABI `napi_throw`: makes the given host value the pending
exception. -/
def napi_throw (st : AbiState) (v : HVal) : AbiState :=
  { st with pending := some v }

/-- Model of ABI `napi_throw_type_error`: creates a type error from a message
and makes it the pending exception. -/
def napi_throw_type_error (st : AbiState) (msg : String) : AbiState :=
  { st with pending := some (HVal.errv ErrKind.typeErrorKind msg) }

/-- Model of ABI `napi_create_string_utf8` in a valid environment: yields a
host string value. -/
def napi_create_string_utf8 (s : String) : NapiV :=
  some (HVal.strv s)

/-- Content of a host string value (used by the error-creation entry points to
read their message argument). -/
def strOf : NapiV → String
  | some (HVal.strv s) => s
  | _ => ""

/-- Model of ABI `napi_create_error`: builds a generic-kind host error whose
message is the given host string. -/
def napi_create_error (msg : NapiV) : NapiV :=
  some (HVal.errv ErrKind.generic (strOf msg))

/-- Model of ABI `napi_create_type_error`: builds a type-kind host error whose
message is the given host string. -/
def napi_create_type_error (msg : NapiV) : NapiV :=
  some (HVal.errv ErrKind.typeErrorKind (strOf msg))

/-- Model of ABI `napi_get_undefined` in a valid environment. -/
def napi_get_undefined : NapiV :=
  some HVal.undef

/-- Model of ABI `napi_create_reference` (the root-creation entry point):
installs a fresh root holding the given value at the given count and returns
its handle.  Increments the `createRefCalls` instrumentation counter. -/
def napi_create_reference (st : AbiState) (v : HVal) (count : Nat) : AbiState × Nat :=
  ({ st with
      refs := (st.nextRef, ⟨some v, count⟩) :: st.refs
      nextRef := st.nextRef + 1
      createRefCalls := st.createRefCalls + 1 }, st.nextRef)

/-- Model of ABI `napi_delete_reference`: releases the root held under the
handle; a null or unknown handle is an invalid argument. -/
def napi_delete_reference (st : AbiState) (h : Option Nat) : AbiState × NapiStatus :=
  match h with
  | none => (st, NapiStatus.invalidArg)
  | some hh =>
    match alookup hh st.refs with
    | none => (st, NapiStatus.invalidArg)
    | some _ => ({ st with refs := eraseRef st.refs hh }, NapiStatus.ok)

/-- Model of ABI `napi_reference_ref`: increments the count of the root and
returns the new count (spec §4.3: "atomically adjust and return the new
count"). -/
def napi_reference_ref (st : AbiState) (h : Option Nat) : AbiState × NapiStatus × Nat :=
  match h with
  | none => (st, NapiStatus.invalidArg, 0)
  | some hh =>
    match alookup hh st.refs with
    | none => (st, NapiStatus.invalidArg, 0)
    | some slot =>
      ({ st with refs := setRef st.refs hh ⟨slot.referent, slot.count + 1⟩ },
       NapiStatus.ok, slot.count + 1)

/-- Model of ABI `napi_reference_unref`: decrements the count of the root and
returns the new count; decrementing a count already at zero fails. -/
def napi_reference_unref (st : AbiState) (h : Option Nat) : AbiState × NapiStatus × Nat :=
  match h with
  | none => (st, NapiStatus.invalidArg, 0)
  | some hh =>
    match alookup hh st.refs with
    | none => (st, NapiStatus.invalidArg, 0)
    | some slot =>
      match slot.count with
      | 0 => (st, NapiStatus.genericFailure, 0)
      | c + 1 =>
        ({ st with refs := setRef st.refs hh ⟨slot.referent, c⟩ }, NapiStatus.ok, c)

/-- Model of ABI `napi_get_reference_value`: for a valid handle returns the
referent, or the null value if the referent has been collected; only an
unknown handle fails. -/
def napi_get_reference_value (st : AbiState) (h : Nat) : NapiStatus × NapiV :=
  match alookup h st.refs with
  | some slot => (NapiStatus.ok, slot.referent)
  | none => (NapiStatus.invalidArg, none)

/-- Model of ABI `napi_wrap` in a valid state: attaches the native instance to
the host object, registers the finalizer, and hands back a fresh reference
handle rooting the wrapper (as node's implementation does). -/
def napi_wrap (st : AbiState) (objId instId : Nat) : AbiState × Nat :=
  ({ st with
      wraps := (objId, instId) :: st.wraps
      refs := (st.nextRef, ⟨some (HVal.objv objId), 0⟩) :: st.refs
      nextRef := st.nextRef + 1 }, st.nextRef)

/-- Model of ABI `napi_unwrap`: retrieves the native instance attached to the
host object, failing if none was ever attached. -/
def napi_unwrap (st : AbiState) (objId : Nat) : NapiStatus × Nat :=
  match alookup objId st.wraps with
  | some instId => (NapiStatus.ok, instId)
  | none => (NapiStatus.invalidArg, 0)

/-- Model of `Value::Type` (src/napi-inl.h:118): a null `napi_value` reports
`napi_undefined` without consulting the ABI; otherwise the host's typeof. -/
def ValueTypeOf (v : NapiV) : String :=
  match v with
  | none => "undefined"
  | some HVal.undef => "undefined"
  | some HVal.nullv => "null"
  | some (HVal.strv _) => "string"
  | some (HVal.errv _ _) => "object"
  | some (HVal.objv _) => "object"
  | some (HVal.funcv _) => "function"

/-- The C++ `Napi::Error` wrapper: its environment pointer and the wrapped
host value (`none` when default-constructed, src/napi-inl.h:1150). -/
structure ErrorObj where
  envp : Option Nat
  value : NapiV
  deriving DecidableEq, Repr

/-- Reading the `message` property of a host value, as `Error::Message` does;
`none` models the property read throwing / not being a string. -/
def getMessageProp (v : NapiV) : Option String :=
  match v with
  | some (HVal.errv _ m) => some m
  | _ => none

/-- Translation of `Error::Message` (src/napi-inl.h:1156): with a non-null
environment the message property of the wrapped value is fetched; a failed
fetch (or a null environment) leaves the cached message empty. -/
def ErrorObj.Message (e : ErrorObj) : String :=
  match e.envp, getMessageProp e.value with
  | some _, some m => m
  | _, _ => ""

/-- Translation of `Error::ThrowAsJavaScriptException` (src/napi-inl.h:1167):
`napi_throw` the wrapped value, a no-op when the error wraps no host value. -/
def ErrorObj.ThrowAsJavaScriptException (e : ErrorObj) (st : AbiState) : AbiState :=
  match e.value with
  | none => st
  | some v => napi_throw st v

/-- Translation of `Error::New(napi_env)` (src/napi-inl.h:1104): if a host
exception is pending, capture and clear it and wrap it as-is; otherwise read
the ABI's last-error info, default the message, classify the last status code
(the four argument-type-expectation codes give a type error, every other code
a generic error) and synthesize a fresh host error. -/
def Error.New (st : AbiState) (env : Option Nat) : AbiState × ErrorObj :=
  if napi_is_exception_pending st then
    let p := napi_get_and_clear_last_exception st
    (p.1, ⟨env, p.2⟩)
  else
    let error_message :=
      match st.lastErrorMsg with
      | some m => m
      | none => "Error in native callback"
    let message := napi_create_string_utf8 error_message
    let error :=
      match st.lastErrorCode with
      | NapiStatus.objectExpected => napi_create_type_error message
      | NapiStatus.stringExpected => napi_create_type_error message
      | NapiStatus.booleanExpected => napi_create_type_error message
      | NapiStatus.numberExpected => napi_create_type_error message
      | _ => napi_create_error message
    (st, ⟨env, error⟩)

/-- Translation of `Error::New(napi_env, const std::string&)`
(src/napi-inl.h:1146 via the private `Error::New` at 1177): create a host
string from the message and a generic-kind host error from it. -/
def Error.NewMsg (env : Option Nat) (message : String) : ErrorObj :=
  let str := napi_create_string_utf8 message
  ⟨env, napi_create_error str⟩

/-- The C++ `Napi::Reference<T>` wrapper: environment pointer, the owned
`napi_ref` handle (null when empty) and the destructor-suppression flag. -/
structure Reference where
  envp : Option Nat
  refh : Option Nat
  suppressDestruct : Bool
  deriving DecidableEq, Repr

/-- Translation of the two-argument constructor `Reference(napi_env, napi_ref)`
(src/napi-inl.h:1246): it initializes only `_env` and `_ref`.  The member
`_suppressDestruct` (declared in napi.h, outside src/) is left unset by this
constructor, so its value is indeterminate; the `indet` argument stands for
that indeterminate value and theorems quantify over it. -/
def Reference.mk2 (env : Option Nat) (h : Option Nat) (indet : Bool) : Reference :=
  ⟨env, h, indet⟩

/-- Translation of `Reference<T>::IsEmpty` (src/napi-inl.h:1301). -/
def Reference.IsEmpty (r : Reference) : Bool :=
  r.refh.isNone

/-- Translation of `Reference<T>::New` (src/napi-inl.h:1225): a null value
yields `Reference(env, nullptr)` without touching the ABI; otherwise a root is
created through `napi_create_reference` at the requested count. -/
def Reference.New (st : AbiState) (venv : Option Nat) (v : NapiV) (initialRefcount : Nat)
    (indet : Bool) : AbiState × Reference :=
  match v with
  | none => (st, Reference.mk2 venv none indet)
  | some hv =>
    let p := napi_create_reference st hv initialRefcount
    (p.1, Reference.mk2 venv (some p.2) indet)

/-- Translation of the destructor `Reference<T>::~Reference`
(src/napi-inl.h:1252): a non-null handle is deleted through the ABI unless
suppression is set, and the handle member is nulled either way. -/
def Reference.destruct (st : AbiState) (r : Reference) : AbiState × Reference :=
  match r.refh with
  | none => (st, r)
  | some h =>
    let st1 := if r.suppressDestruct then st else (napi_delete_reference st (some h)).1
    (st1, { r with refh := none })

/-- Translation of the move constructor `Reference(Reference&&)`
(src/napi-inl.h:1262): `_env` and `_ref` are taken from the source and the
source's are nulled; `_suppressDestruct` of the new object is never assigned
(indeterminate, stood for by `indet`), and the source's is left as it was.
Returns (new object, source after the move). -/
def Reference.moveCtor (other : Reference) (indet : Bool) : Reference × Reference :=
  (⟨other.envp, other.refh, indet⟩, ⟨none, none, other.suppressDestruct⟩)

/-- Translation of the move assignment `operator=(Reference&&)`
(src/napi-inl.h:1271): `_env` and `_ref` are taken from the source and the
source's are nulled; neither side's `_suppressDestruct` is assigned, so the
target keeps its previous flag.  Returns (target after, source after). -/
def Reference.moveAssign (target other : Reference) : Reference × Reference :=
  (⟨other.envp, other.refh, target.suppressDestruct⟩, ⟨none, none, other.suppressDestruct⟩)

/-- Translation of `Reference<T>::Value` (src/napi-inl.h:1305): an empty
reference yields `T(_env, nullptr)` directly; otherwise the referent is read
through `napi_get_reference_value`, throwing `Error::New(_env)` only on a
failing status. -/
def Reference.Value (st : AbiState) (r : Reference) : Except ErrorObj NapiV :=
  match r.refh with
  | none => Except.ok none
  | some h =>
    let p := napi_get_reference_value st h
    if p.1 = NapiStatus.ok then Except.ok p.2
    else Except.error (Error.New st r.envp).2

/-- Translation of `Reference<T>::Ref` (src/napi-inl.h:1317): increment the
count through the ABI, throwing on a failing status. -/
def Reference.Ref (st : AbiState) (r : Reference) : Except ErrorObj (AbiState × Nat) :=
  let p := napi_reference_ref st r.refh
  if p.2.1 = NapiStatus.ok then Except.ok (p.1, p.2.2)
  else Except.error (Error.New p.1 r.envp).2

/-- Translation of `Reference<T>::Unref` (src/napi-inl.h:1326): decrement the
count through the ABI, throwing on a failing status. -/
def Reference.Unref (st : AbiState) (r : Reference) : Except ErrorObj (AbiState × Nat) :=
  let p := napi_reference_unref st r.refh
  if p.2.1 = NapiStatus.ok then Except.ok (p.1, p.2.2)
  else Except.error (Error.New p.1 r.envp).2

/-- Translation of `Reference<T>::Reset()` (src/napi-inl.h:1334): a non-null
handle is released through `napi_delete_reference` (throwing on failure) and
nulled. -/
def Reference.Reset (st : AbiState) (r : Reference) : Except ErrorObj (AbiState × Reference) :=
  match r.refh with
  | none => Except.ok (st, r)
  | some h =>
    let p := napi_delete_reference st (some h)
    if p.2 = NapiStatus.ok then Except.ok (p.1, { r with refh := none })
    else Except.error (Error.New p.1 r.envp).2

/-- Translation of `Reference<T>::Reset(const T&, int)` (src/napi-inl.h:1342):
release any prior root via `Reset()`, adopt the value's environment, then
install a new root only when the value is non-null. -/
def Reference.ResetTo (st : AbiState) (r : Reference) (venv : Option Nat) (v : NapiV)
    (refcount : Nat) : Except ErrorObj (AbiState × Reference) :=
  match Reference.Reset st r with
  | Except.error e => Except.error e
  | Except.ok (st1, r1) =>
    let r2 := { r1 with envp := venv }
    match v with
    | none => Except.ok (st1, r2)
    | some hv =>
      let p := napi_create_reference st1 hv refcount
      Except.ok (p.1, { r2 with refh := some p.2 })

/-- Translation of `Reference<T>::SuppressDestruct` (src/napi-inl.h:1355). -/
def Reference.SuppressDestruct (r : Reference) : Reference :=
  { r with suppressDestruct := true }

/-- The C++ `Napi::CallbackInfo` after its constructor (src/napi-inl.h:1601)
ran successfully: receiver, argument count (`int` in the source), the
marshaled argument vector, and the opaque registration data pointer. -/
structure CallbackInfo where
  envp : Option Nat
  thisv : NapiV
  argc : Int
  args : List NapiV
  dataPtr : Nat
  deriving DecidableEq, Repr

/-- Translation of the `CallbackInfo` constructor (src/napi-inl.h:1601) on the
success path: `napi_get_cb_this`, `napi_get_cb_args_length` and
`napi_get_cb_args` marshal the receiver, the count and a copy of the argument
vector out of the raw callback info, and `napi_get_cb_data` the opaque data. -/
def CallbackInfo.ofRaw (envp : Option Nat) (rawThis : NapiV) (rawArgs : List NapiV)
    (dataPtr : Nat) : CallbackInfo :=
  ⟨envp, rawThis, (rawArgs.length : Int), rawArgs, dataPtr⟩

/-- Translation of `CallbackInfo::Length` (src/napi-inl.h:1638). -/
def CallbackInfo.Length (ci : CallbackInfo) : Int :=
  ci.argc

/-- A read of `_argv[index]`: defined exactly on the indices backed by the
marshaled vector; `none` marks the reads the C++ would perform out of
bounds. -/
def argvRead (args : List NapiV) (index : Int) : Option NapiV :=
  if h : 0 ≤ index ∧ index.toNat < args.length then some (args.get ⟨index.toNat, h.2⟩)
  else none

/-- Translation of `CallbackInfo::operator[]` (src/napi-inl.h:1642):
`index < _argc ? Value(_env, _argv[index]) : Env().Undefined()`.  The boolean
records which branch ran, i.e. whether the argument array was read. -/
def CallbackInfo.getArg (ci : CallbackInfo) (index : Int) : Option NapiV × Bool :=
  if index < ci.argc then (argvRead ci.args index, true)
  else (some napi_get_undefined, false)

/-- Outcome of running a user callback inside a trampoline's try block: it
returns a value or lets a native `Error` exception escape. -/
inductive CbOutcome where
  | ret (v : NapiV)
  | threw (e : ErrorObj)

/-- Outcome of running a user class constructor (`new T(callbackInfo)`) inside
the constructor trampoline's try block. -/
inductive CtorOutcome where
  | succeeds
  | throws (e : ErrorObj)

/-- Outcome of running the module registration callback. -/
inductive ModuleOutcome where
  | ok
  | threw (e : ErrorObj)

/-- Translation of `Function::New(napi_env, FunctionCallback, ...)`
(src/napi-inl.h:883, same allocation shape as the overload at 868): a
`CallbackData` is heap-allocated (the source's comment: "TODO: Delete when the
function is destroyed" — nothing ever deletes it) and `napi_create_function`
creates the host function around the trampoline and that data. -/
def Function.New (st : AbiState) : AbiState × NapiV :=
  let st1 := { st with liveCallbackData := st.liveCallbackData + 1 }
  ({ st1 with nextVal := st1.nextVal + 1 }, some (HVal.funcv st1.nextVal))

/-- Translation of `Function::FunctionCallbackWrapper` (src/napi-inl.h:1001):
run the user callback; on a native `Error` escaping, throw it as a host
exception only when none is pending, and return without touching the return
slot; on success store the result through `napi_set_return_value`. -/
def Function.FunctionCallbackWrapper (st : AbiState) (outcome : CbOutcome) :
    AbiState × Option NapiV :=
  match outcome with
  | CbOutcome.ret v => (st, some v)
  | CbOutcome.threw e =>
    if napi_is_exception_pending st then (st, none)
    else (e.ThrowAsJavaScriptException st, none)

/-- Translation of `Function::VoidFunctionCallbackWrapper`
(src/napi-inl.h:987): identical guard, no return slot. -/
def Function.VoidFunctionCallbackWrapper (st : AbiState) (outcome : Option ErrorObj) :
    AbiState :=
  match outcome with
  | none => st
  | some e =>
    if napi_is_exception_pending st then st
    else e.ThrowAsJavaScriptException st

/-- Translation of `RegisterModule` (src/napi-inl.h:30): run the registration
callback; a native `Error` escaping is converted to a thrown host exception
only when none is pending. -/
def RegisterModule (st : AbiState) (outcome : ModuleOutcome) : AbiState :=
  match outcome with
  | ModuleOutcome.ok => st
  | ModuleOutcome.threw e =>
    if napi_is_exception_pending st then st
    else e.ThrowAsJavaScriptException st

/-- A registered property descriptor: its name and the identity of the
`CallbackData` allocation attached to it. -/
structure PropDesc where
  utf8name : String
  dataId : Nat
  deriving DecidableEq, Repr

/-- Translation of `ObjectWrap<T>::InstanceMethod` (src/napi-inl.h:1782): a
`CallbackData` is heap-allocated (source comment: "TODO: Delete when the class
is destroyed" — nothing ever deletes it) and attached to the returned
descriptor. -/
def ObjectWrap.InstanceMethod (st : AbiState) (utf8name : String) : AbiState × PropDesc :=
  let dataId := st.liveCallbackData
  ({ st with liveCallbackData := st.liveCallbackData + 1 }, ⟨utf8name, dataId⟩)

/-- Translation of `ObjectWrap<T>::ConstructorCallbackWrapper`
(src/napi-inl.h:1843): a non-construct invocation throws a host type error
with the fixed message and returns at once; a construct invocation runs the
native constructor, and on success allocates the instance, attaches it via
`napi_wrap`, installs the back-reference (`*instanceRef = Reference<Object>(env, ref)`)
and stores the wrapper in the return slot; a native `Error` from the
constructor is thrown as a host exception only when none is pending, with no
instance created or attached. -/
def ObjectWrap.ConstructorCallbackWrapper (st : AbiState) (isConstructCall : Bool)
    (thisObj : Nat) (ctor : CtorOutcome) : AbiState × Option NapiV :=
  if !isConstructCall then
    (napi_throw_type_error st "Class constructors cannot be invoked without 'new'", none)
  else
    match ctor with
    | CtorOutcome.throws e =>
      if napi_is_exception_pending st then (st, none)
      else (e.ThrowAsJavaScriptException st, none)
    | CtorOutcome.succeeds =>
      let instId := st.nextInst
      let st1 := { st with nextInst := st.nextInst + 1, liveInstances := st.liveInstances + 1 }
      let p := napi_wrap st1 thisObj instId
      let st3 := { p.1 with backRefs := (instId, p.2) :: p.1.backRefs }
      (st3, some (some (HVal.objv thisObj)))

/-- Translation of `ObjectWrap<T>::Unwrap` (src/napi-inl.h:1669): read the
attached instance through `napi_unwrap`, throwing `Error::New` on failure. -/
def ObjectWrap.Unwrap (st : AbiState) (env : Option Nat) (objId : Nat) :
    Except ErrorObj Nat :=
  let p := napi_unwrap st objId
  if p.1 = NapiStatus.ok then Except.ok p.2
  else Except.error (Error.New st env).2

/-- Translation of `ObjectWrap<T>::InstanceMethodCallbackWrapper`
(src/napi-inl.h:1982): unwrap the receiver (a failing unwrap throws
`Error::New` inside the same try block) and dispatch through the bound member
callable; a native `Error` escaping is thrown as a host exception only when
none is pending; on success the result goes to the return slot. -/
def ObjectWrap.InstanceMethodCallbackWrapper (st : AbiState) (env : Option Nat)
    (thisObj : Nat) (outcome : Nat → CbOutcome) : AbiState × Option NapiV :=
  match alookup thisObj st.wraps with
  | none =>
    let p := Error.New st env
    if napi_is_exception_pending p.1 then (p.1, none)
    else (p.2.ThrowAsJavaScriptException p.1, none)
  | some instId =>
    match outcome instId with
    | CbOutcome.ret v => (st, some v)
    | CbOutcome.threw e =>
      if napi_is_exception_pending st then (st, none)
      else (e.ThrowAsJavaScriptException st, none)

/-- Translation of `ObjectWrap<T>::FinalizeCallback` (src/napi-inl.h:2050):
deletes the native instance. -/
def ObjectWrap.FinalizeCallback (st : AbiState) : AbiState :=
  { st with liveInstances := st.liveInstances - 1 }

/-- Model of the host collecting a function created by `napi_create_function`:
the source registers no finalizer for the `CallbackData` it attached
(src/napi-inl.h:868-895 pass only the trampoline and the raw data pointer), so
collection runs no native cleanup of the binding layer's. -/
def collectFunction (st : AbiState) : AbiState :=
  st

/-- The mutable per-worker fields of `Napi::AsyncWorker` that its completion
path reads: the stored error-message string and the environment. -/
structure AsyncWorkerModel where
  errmsg : String
  envp : Option Nat
  deriving DecidableEq, Repr

/-- Translation of `AsyncWorker::OnOK` (src/napi-inl.h:2179): the held
completion callback is invoked with an empty argument vector.  The result is
the argument vector passed to the callback. -/
def AsyncWorker.OnOK : List NapiV :=
  []

/-- Translation of `AsyncWorker::OnError` (src/napi-inl.h:2183): the held
completion callback is invoked with the single argument
`Error::New(Env(), _errmsg)`. -/
def AsyncWorker.OnError (w : AsyncWorkerModel) : List NapiV :=
  [(Error.NewMsg w.envp w.errmsg).value]

/-- Translation of `AsyncWorker::WorkComplete` (src/napi-inl.h:2165): inside a
fresh handle scope, dispatch on `_errmsg.size() == 0` to the success or the
failure hook.  The result is the argument vector the held completion callback
is invoked with. -/
def AsyncWorker.WorkComplete (w : AsyncWorkerModel) : List NapiV :=
  if w.errmsg.length == 0 then AsyncWorker.OnOK
  else AsyncWorker.OnError w

/-- Translation of `AsyncWorker::SetErrorMessage` (src/napi-inl.h:2189). -/
def AsyncWorker.SetErrorMessage (w : AsyncWorkerModel) (msg : String) : AsyncWorkerModel :=
  { w with errmsg := msg }

/-- Every state-transforming operation the embedded source defines, used to
express that no operation of the source ever releases `CallbackData`. -/
inductive SourceOp where
  | opFunctionNew
  | opInstanceMethod (utf8name : String)
  | opFunctionCallbackWrapper (outcome : CbOutcome)
  | opVoidFunctionCallbackWrapper (outcome : Option ErrorObj)
  | opRegisterModule (outcome : ModuleOutcome)
  | opConstructorCallbackWrapper (isConstructCall : Bool) (thisObj : Nat) (ctor : CtorOutcome)
  | opInstanceMethodCallbackWrapper (env : Option Nat) (thisObj : Nat) (outcome : Nat → CbOutcome)
  | opFinalizeCallback
  | opCollectFunction
  | opErrorNew (env : Option Nat)
  | opThrowAsJs (e : ErrorObj)
  | opReferenceNew (venv : Option Nat) (v : NapiV) (count : Nat) (indet : Bool)
  | opReferenceDestruct (r : Reference)
  | opReferenceRef (r : Reference)
  | opReferenceUnref (r : Reference)
  | opReferenceReset (r : Reference)
  | opReferenceResetTo (r : Reference) (venv : Option Nat) (v : NapiV) (count : Nat)

/-- Run one operation of the source on the ABI state (for fallible operations,
the state at the point of the throw). -/
def applyOp (op : SourceOp) (st : AbiState) : AbiState :=
  match op with
  | SourceOp.opFunctionNew => (Function.New st).1
  | SourceOp.opInstanceMethod n => (ObjectWrap.InstanceMethod st n).1
  | SourceOp.opFunctionCallbackWrapper o => (Function.FunctionCallbackWrapper st o).1
  | SourceOp.opVoidFunctionCallbackWrapper o => Function.VoidFunctionCallbackWrapper st o
  | SourceOp.opRegisterModule o => RegisterModule st o
  | SourceOp.opConstructorCallbackWrapper icc t c =>
    (ObjectWrap.ConstructorCallbackWrapper st icc t c).1
  | SourceOp.opInstanceMethodCallbackWrapper env t o =>
    (ObjectWrap.InstanceMethodCallbackWrapper st env t o).1
  | SourceOp.opFinalizeCallback => ObjectWrap.FinalizeCallback st
  | SourceOp.opCollectFunction => collectFunction st
  | SourceOp.opErrorNew env => (Error.New st env).1
  | SourceOp.opThrowAsJs e => e.ThrowAsJavaScriptException st
  | SourceOp.opReferenceNew venv v c i => (Reference.New st venv v c i).1
  | SourceOp.opReferenceDestruct r => (Reference.destruct st r).1
  | SourceOp.opReferenceRef r =>
    match Reference.Ref st r with
    | Except.ok p => p.1
    | Except.error _ => st
  | SourceOp.opReferenceUnref r =>
    match Reference.Unref st r with
    | Except.ok p => p.1
    | Except.error _ => st
  | SourceOp.opReferenceReset r =>
    match Reference.Reset st r with
    | Except.ok p => p.1
    | Except.error _ => st
  | SourceOp.opReferenceResetTo r venv v c =>
    match Reference.ResetTo st r venv v c with
    | Except.ok p => p.1
    | Except.error _ => st

/-- The spec's classification "argument-type-expectation codes
(object/string/boolean/number expected)" (spec §4.7), written from the spec's
words for comparison with the source's switch. -/
def specArgTypeExpectation (c : NapiStatus) : Bool :=
  decide (c = NapiStatus.objectExpected ∨ c = NapiStatus.stringExpected ∨
    c = NapiStatus.booleanExpected ∨ c = NapiStatus.numberExpected)

/-- A concrete ABI state holding one live strong root (handle 0 to object 5),
used by the closed counterexamples and witnesses. -/
def cexState : AbiState :=
  { refs := [(0, ⟨some (HVal.objv 5), 1⟩)]
    nextRef := 1
    wraps := []
    backRefs := []
    nextInst := 0
    liveInstances := 0
    nextVal := 0
    pending := none
    lastErrorCode := NapiStatus.ok
    lastErrorMsg := none
    createRefCalls := 0
    liveCallbackData := 0 }

/-! ## Helper lemmas -/

theorem alookup_setRef_self (l : List (Nat × RefSlot)) (h : Nat) (s : RefSlot)
    (hl : (alookup h l).isSome) : alookup h (setRef l h s) = some s := by
  induction l with
  | nil => simp [alookup] at hl
  | cons p rest ih =>
    obtain ⟨k, s0⟩ := p
    by_cases hk : k = h
    · subst hk
      simp [setRef, alookup]
    · have hk1 : ¬ h = k := fun e => hk e.symm
      simp only [alookup, if_neg hk1] at hl
      simp only [setRef, if_neg hk, alookup, if_neg hk1]
      exact ih hl

theorem string_empty_of_length_zero (s : String) (h : s.length = 0) : s = "" := by
  cases s with
  | mk data =>
    cases data with
    | nil => rfl
    | cons a l => simp [String.length] at h

theorem liveCallbackData_throwAsJs (e : ErrorObj) (st : AbiState) :
    (e.ThrowAsJavaScriptException st).liveCallbackData = st.liveCallbackData := by
  cases hv : e.value <;>
    simp [ErrorObj.ThrowAsJavaScriptException, hv, napi_throw]

theorem liveCallbackData_errorNew (st : AbiState) (env : Option Nat) :
    (Error.New st env).1.liveCallbackData = st.liveCallbackData := by
  by_cases hp : napi_is_exception_pending st = true
  · simp [Error.New, hp, napi_get_and_clear_last_exception]
  · simp [Error.New, hp]

theorem liveCallbackData_deleteRef (st : AbiState) (h : Option Nat) :
    (napi_delete_reference st h).1.liveCallbackData = st.liveCallbackData := by
  cases h with
  | none => rfl
  | some hh => cases hl : alookup hh st.refs <;> simp [napi_delete_reference, hl]

theorem liveCallbackData_refRef (st : AbiState) (h : Option Nat) :
    (napi_reference_ref st h).1.liveCallbackData = st.liveCallbackData := by
  cases h with
  | none => rfl
  | some hh => cases hl : alookup hh st.refs <;> simp [napi_reference_ref, hl]

theorem liveCallbackData_refUnref (st : AbiState) (h : Option Nat) :
    (napi_reference_unref st h).1.liveCallbackData = st.liveCallbackData := by
  cases h with
  | none => rfl
  | some hh =>
    cases hl : alookup hh st.refs with
    | none => simp [napi_reference_unref, hl]
    | some slot =>
      obtain ⟨rv, c⟩ := slot
      cases c <;> simp [napi_reference_unref, hl]

/-! ## Claim theorems -/

/-- C1: a non-construct invocation of the registered constructor trampoline
throws the fixed type-classified host error and returns with no native
instance created or attached; a construct invocation whose native constructor
succeeds attaches the fresh instance to the receiver, and `Unwrap` on that
receiver returns exactly that instance. -/
theorem constructor_wrapper_spec (st : AbiState) (env : Option Nat) (thisObj : Nat)
    (ctor : CtorOutcome) :
    ((ObjectWrap.ConstructorCallbackWrapper st false thisObj ctor).1.pending =
        some (HVal.errv ErrKind.typeErrorKind
          "Class constructors cannot be invoked without 'new'") ∧
      (ObjectWrap.ConstructorCallbackWrapper st false thisObj ctor).1.wraps = st.wraps ∧
      (ObjectWrap.ConstructorCallbackWrapper st false thisObj ctor).1.nextInst = st.nextInst ∧
      (ObjectWrap.ConstructorCallbackWrapper st false thisObj ctor).1.liveInstances =
        st.liveInstances ∧
      (ObjectWrap.ConstructorCallbackWrapper st false thisObj ctor).2 = none) ∧
    (ObjectWrap.Unwrap
        (ObjectWrap.ConstructorCallbackWrapper st true thisObj CtorOutcome.succeeds).1 env
        thisObj = Except.ok st.nextInst ∧
      (ObjectWrap.ConstructorCallbackWrapper st true thisObj CtorOutcome.succeeds).2 =
        some (some (HVal.objv thisObj))) := by
  refine ⟨⟨rfl, rfl, rfl, rfl, rfl⟩, ?_, rfl⟩
  simp [ObjectWrap.ConstructorCallbackWrapper, napi_wrap, ObjectWrap.Unwrap, napi_unwrap,
    alookup]

/-- C2: when the completion hook of a queued worker runs, an empty stored
error message makes the held completion callback fire with zero arguments,
and a non-empty one makes it fire with exactly one argument, a host error
built from the stored message whose message equals that string exactly. -/
theorem workComplete_dispatch (n : Nat) (errmsg : String) :
    (errmsg = "" → AsyncWorker.WorkComplete ⟨errmsg, some n⟩ = []) ∧
    (errmsg ≠ "" →
      AsyncWorker.WorkComplete ⟨errmsg, some n⟩ =
          [some (HVal.errv ErrKind.generic errmsg)] ∧
        ErrorObj.Message ⟨some n, some (HVal.errv ErrKind.generic errmsg)⟩ = errmsg) := by
  constructor
  · intro he
    subst he
    simp [AsyncWorker.WorkComplete, AsyncWorker.OnOK]
  · intro hne
    have hlen : errmsg.length ≠ 0 := fun h0 => hne (string_empty_of_length_zero errmsg h0)
    constructor
    · simp [AsyncWorker.WorkComplete, AsyncWorker.OnError, Error.NewMsg,
        napi_create_error, napi_create_string_utf8, strOf, hlen]
    · simp [ErrorObj.Message, getMessageProp]

/-- C2 witness: the empty message fires the zero-argument success path, and
message "boom" fires the one-argument failure path with an error whose
message is "boom". -/
theorem workComplete_dispatch_witness :
    AsyncWorker.WorkComplete ⟨"", some 0⟩ = [] ∧
      AsyncWorker.WorkComplete ⟨"boom", some 0⟩ =
        [some (HVal.errv ErrKind.generic "boom")] ∧
      ErrorObj.Message ⟨some 0, some (HVal.errv ErrKind.generic "boom")⟩ = "boom" := by
  refine ⟨(workComplete_dispatch 0 "").1 rfl, ?_, ?_⟩
  · exact ((workComplete_dispatch 0 "boom").2 (by decide)).1
  · exact ((workComplete_dispatch 0 "boom").2 (by decide)).2

/-- C3: `Error::New(env)` with no explicit message captures and clears a
pending host exception when one exists, wrapping it as-is; otherwise it
synthesizes a host error from the ABI's last-error message (defaulted when
absent), of type-error kind exactly for the argument-type-expectation status
codes and of generic kind for every other status. -/
theorem error_new_classification (st : AbiState) (env : Option Nat) :
    Error.New st env =
      match st.pending with
      | some v => ({ st with pending := none }, ⟨env, some v⟩)
      | none =>
        (st, ⟨env, some (HVal.errv
          (if specArgTypeExpectation st.lastErrorCode then ErrKind.typeErrorKind
           else ErrKind.generic)
          (st.lastErrorMsg.getD "Error in native callback"))⟩) := by
  cases hp : st.pending with
  | some v =>
    simp [Error.New, napi_is_exception_pending, hp, napi_get_and_clear_last_exception]
  | none =>
    cases hc : st.lastErrorCode <;> cases hm : st.lastErrorMsg <;>
      simp [Error.New, napi_is_exception_pending, hp, hc, hm, specArgTypeExpectation,
        napi_create_type_error, napi_create_error, napi_create_string_utf8, strOf]

/-- C4 counterexample: a default-constructed `Error` (which wraps no host
value, src/napi-inl.h:1150) escapes the user callback while no host exception
is pending, yet after the trampoline's guard runs no host exception is
pending either — the claimed "converted into a thrown host exception
whenever none is pending" fails, because `ThrowAsJavaScriptException` is a
no-op on a valueless error (src/napi-inl.h:1167). -/
theorem trampoline_guard_cex :
    cexState.pending = none ∧
      (Function.FunctionCallbackWrapper cexState
          (CbOutcome.threw ⟨none, none⟩)).1.pending = none := by
  exact ⟨rfl, rfl⟩

/-- C4 amended: at the boundary points (function trampoline, module
registration, instance-method trampoline) an escaping native `Error` is
caught; if a host exception is already pending nothing further is thrown, and
otherwise the error's wrapped host value — if it has one — becomes the
pending host exception (an error with no underlying host value throws
nothing).  The resulting pending exception is always
`firstSome st.pending e.value`, so a pending exception is never replaced. -/
theorem trampoline_guard_amended (st : AbiState) (e : ErrorObj) (env : Option Nat)
    (thisObj instId : Nat) :
    ((Function.FunctionCallbackWrapper st (CbOutcome.threw e)).1.pending =
        firstSome st.pending e.value ∧
      (Function.FunctionCallbackWrapper st (CbOutcome.threw e)).2 = none) ∧
    (RegisterModule st (ModuleOutcome.threw e)).pending = firstSome st.pending e.value ∧
    ((ObjectWrap.InstanceMethodCallbackWrapper
          { st with wraps := (thisObj, instId) :: st.wraps } env thisObj
          (fun _ => CbOutcome.threw e)).1.pending = firstSome st.pending e.value ∧
      (ObjectWrap.InstanceMethodCallbackWrapper
          { st with wraps := (thisObj, instId) :: st.wraps } env thisObj
          (fun _ => CbOutcome.threw e)).2 = none) := by
  cases hp : st.pending <;> cases he : e.value <;>
    simp [Function.FunctionCallbackWrapper, RegisterModule,
      ObjectWrap.InstanceMethodCallbackWrapper, napi_is_exception_pending, hp, he,
      firstSome, alookup, ErrorObj.ThrowAsJavaScriptException, napi_throw]

/-- C5: `Reference::Value` on an empty reference, and on a reference whose
referent the host GC has collected, yields the null handle (whose reported
type is the undefined sentinel) without throwing; for any reference that is
empty or whose handle the ABI knows, the error branch is unreachable. -/
theorem reference_value_safe (st : AbiState) (r : Reference) :
    (r.IsEmpty = true →
      Reference.Value st r = Except.ok none ∧ ValueTypeOf none = "undefined") ∧
    (∀ h c, r.refh = some h → alookup h st.refs = some ⟨none, c⟩ →
      Reference.Value st r = Except.ok none) ∧
    (∀ h, r.refh = some h → (alookup h st.refs).isSome = true →
      ∃ v, Reference.Value st r = Except.ok v) := by
  refine ⟨?_, ?_, ?_⟩
  · intro he
    have hr : r.refh = none := Option.isNone_iff_eq_none.mp he
    exact ⟨by simp [Reference.Value, hr], rfl⟩
  · intro h c hr hl
    simp [Reference.Value, hr, napi_get_reference_value, hl]
  · intro h hr hl
    obtain ⟨slot, hslot⟩ := Option.isSome_iff_exists.mp hl
    exact ⟨slot.referent, by simp [Reference.Value, hr, napi_get_reference_value, hslot]⟩

/-- C5 witness: an empty reference, a reference to a collected referent, and
a live reference, each at a concrete state. -/
theorem reference_value_safe_witness :
    Reference.Value cexState ⟨some 0, none, false⟩ = Except.ok none ∧
      Reference.Value { cexState with refs := [(0, ⟨none, 0⟩)] } ⟨some 0, some 0, false⟩ =
        Except.ok none ∧
      ∃ v, Reference.Value cexState ⟨some 0, some 0, false⟩ = Except.ok v := by
  refine ⟨((reference_value_safe cexState ⟨some 0, none, false⟩).1 (by decide)).1, ?_, ?_⟩
  · exact (reference_value_safe { cexState with refs := [(0, ⟨none, 0⟩)] }
      ⟨some 0, some 0, false⟩).2.1 0 0 rfl (by decide)
  · exact (reference_value_safe cexState ⟨some 0, some 0, false⟩).2.2 0 rfl (by decide)

/-- C6 counterexample: destructor suppression set on the source is not
honored after a move.  A default-constructed target move-assigned from a
suppressed source carries `suppressDestruct = false`, so destroying the
target deletes the root (the refs table empties) although destroying the
original suppressed reference would have left the root alone. -/
theorem reference_move_suppress_cex :
    (Reference.moveAssign ⟨none, none, false⟩ ⟨some 0, some 0, true⟩).1.suppressDestruct
        = false ∧
      (⟨some 0, some 0, true⟩ : Reference).suppressDestruct = true ∧
      (Reference.destruct cexState
          (Reference.moveAssign ⟨none, none, false⟩ ⟨some 0, some 0, true⟩).1).1.refs = [] ∧
      (Reference.destruct cexState ⟨some 0, some 0, true⟩).1.refs = cexState.refs := by
  exact ⟨rfl, rfl, by decide, rfl⟩

/-- C6 amended: move construction and move assignment transfer the
environment and the `napi_ref` handle and void the source (it becomes empty
and destroying it releases nothing), but the destructor-suppression flag is
not part of the transfer: after move assignment the target keeps its own
previous flag, and after move construction the flag is the indeterminate
value of the uninitialized member, so suppression previously set on the
source is not honored by the target. -/
theorem reference_move_spec (st : AbiState) (target other : Reference) (indet : Bool) :
    ((Reference.moveAssign target other).1.envp = other.envp ∧
      (Reference.moveAssign target other).1.refh = other.refh ∧
      (Reference.moveAssign target other).1.suppressDestruct = target.suppressDestruct) ∧
    ((Reference.moveAssign target other).2.IsEmpty = true ∧
      Reference.destruct st (Reference.moveAssign target other).2 =
        (st, (Reference.moveAssign target other).2)) ∧
    ((Reference.moveCtor other indet).1.envp = other.envp ∧
      (Reference.moveCtor other indet).1.refh = other.refh ∧
      (Reference.moveCtor other indet).1.suppressDestruct = indet) ∧
    ((Reference.moveCtor other indet).2.IsEmpty = true ∧
      Reference.destruct st (Reference.moveCtor other indet).2 =
        (st, (Reference.moveCtor other indet).2)) := by
  exact ⟨⟨rfl, rfl, rfl⟩, ⟨rfl, rfl⟩, ⟨rfl, rfl, rfl⟩, ⟨rfl, rfl⟩⟩

/-- C7: on a reference whose root sits at count 1 with a live referent,
`Unref()` returns 0, a following `Ref()` returns 1, and the referent is still
retrievable through `Value()`. -/
theorem reference_unref_ref_roundtrip (st : AbiState) (r : Reference) (h : Nat) (hv : HVal)
    (hr : r.refh = some h) (hs : alookup h st.refs = some ⟨some hv, 1⟩) :
    ∃ st1 st2,
      Reference.Unref st r = Except.ok (st1, 0) ∧
        Reference.Ref st1 r = Except.ok (st2, 1) ∧
        Reference.Value st2 r = Except.ok (some hv) := by
  have hs1 : alookup h (setRef st.refs h ⟨some hv, 0⟩) = some ⟨some hv, 0⟩ :=
    alookup_setRef_self _ _ _ (by simp [hs])
  have hs2 : alookup h (setRef (setRef st.refs h ⟨some hv, 0⟩) h ⟨some hv, 1⟩) =
      some ⟨some hv, 1⟩ :=
    alookup_setRef_self _ _ _ (by simp [hs1])
  refine ⟨{ st with refs := setRef st.refs h ⟨some hv, 0⟩ },
    { st with refs := setRef (setRef st.refs h ⟨some hv, 0⟩) h ⟨some hv, 1⟩ }, ?_, ?_, ?_⟩
  · simp [Reference.Unref, hr, napi_reference_unref, hs]
  · simp [Reference.Ref, hr, napi_reference_ref, hs1]
  · simp [Reference.Value, hr, napi_get_reference_value, hs2]

/-- C7 witness: the round trip at a concrete state holding one strong root at
count 1. -/
theorem reference_unref_ref_roundtrip_witness :
    ∃ st1 st2,
      Reference.Unref cexState ⟨some 0, some 0, false⟩ = Except.ok (st1, 0) ∧
        Reference.Ref st1 ⟨some 0, some 0, false⟩ = Except.ok (st2, 1) ∧
        Reference.Value st2 ⟨some 0, some 0, false⟩ = Except.ok (some (HVal.objv 5)) :=
  reference_unref_ref_roundtrip cexState ⟨some 0, some 0, false⟩ 0 (HVal.objv 5) rfl
    (by decide)

/-- C8: the per-registration `CallbackData` is leaked.  `Function::New` and
`ObjectWrap::InstanceMethod` each allocate one `CallbackData`
(src/napi-inl.h:873, 1788, with the source's own comments "TODO: Delete when
the function/class is destroyed"), collecting the owning function runs no
cleanup because no finalizer was registered for the data, and no operation
defined by the source ever decreases the number of live `CallbackData`
allocations — contradicting the claimed release on owner release. -/
theorem callbackData_leak :
    (∀ st : AbiState, (Function.New st).1.liveCallbackData = st.liveCallbackData + 1) ∧
    (∀ (st : AbiState) (n : String),
      (ObjectWrap.InstanceMethod st n).1.liveCallbackData = st.liveCallbackData + 1) ∧
    (∀ st : AbiState, collectFunction st = st) ∧
    (∀ (op : SourceOp) (st : AbiState),
      st.liveCallbackData ≤ (applyOp op st).liveCallbackData) := by
  refine ⟨fun st => rfl, fun st n => rfl, fun st => rfl, ?_⟩
  intro op st
  cases op with
  | opFunctionNew => exact Nat.le_succ _
  | opInstanceMethod n => exact Nat.le_succ _
  | opFunctionCallbackWrapper o =>
    cases o with
    | ret v => exact le_refl _
    | threw e =>
      by_cases hp : napi_is_exception_pending st = true <;>
        simp [applyOp, Function.FunctionCallbackWrapper, hp, liveCallbackData_throwAsJs]
  | opVoidFunctionCallbackWrapper o =>
    cases o with
    | none => exact le_refl _
    | some e =>
      by_cases hp : napi_is_exception_pending st = true <;>
        simp [applyOp, Function.VoidFunctionCallbackWrapper, hp, liveCallbackData_throwAsJs]
  | opRegisterModule o =>
    cases o with
    | ok => exact le_refl _
    | threw e =>
      by_cases hp : napi_is_exception_pending st = true <;>
        simp [applyOp, RegisterModule, hp, liveCallbackData_throwAsJs]
  | opConstructorCallbackWrapper icc t c =>
    cases icc with
    | false => exact le_of_eq rfl
    | true =>
      cases c with
      | succeeds =>
        simp [applyOp, ObjectWrap.ConstructorCallbackWrapper, napi_wrap]
      | throws e =>
        by_cases hp : napi_is_exception_pending st = true <;>
          simp [applyOp, ObjectWrap.ConstructorCallbackWrapper, hp,
            liveCallbackData_throwAsJs]
  | opInstanceMethodCallbackWrapper env t o =>
    cases hl : alookup t st.wraps with
    | none =>
      by_cases hp : napi_is_exception_pending (Error.New st env).1 = true <;>
        simp [applyOp, ObjectWrap.InstanceMethodCallbackWrapper, hl, hp,
          liveCallbackData_throwAsJs, liveCallbackData_errorNew]
    | some instId =>
      cases ho : o instId with
      | ret v => simp [applyOp, ObjectWrap.InstanceMethodCallbackWrapper, hl, ho]
      | threw e =>
        by_cases hp : napi_is_exception_pending st = true <;>
          simp [applyOp, ObjectWrap.InstanceMethodCallbackWrapper, hl, ho, hp,
            liveCallbackData_throwAsJs]
  | opFinalizeCallback => exact le_refl _
  | opCollectFunction => exact le_refl _
  | opErrorNew env =>
    exact le_of_eq (liveCallbackData_errorNew st env).symm
  | opThrowAsJs e =>
    exact le_of_eq (liveCallbackData_throwAsJs e st).symm
  | opReferenceNew venv v c i =>
    cases v with
    | none => exact le_refl _
    | some hv => simp [applyOp, Reference.New, napi_create_reference]
  | opReferenceDestruct r =>
    cases hr : r.refh with
    | none => simp [applyOp, Reference.destruct, hr]
    | some h =>
      by_cases hsup : r.suppressDestruct = true <;>
        simp [applyOp, Reference.destruct, hr, hsup, liveCallbackData_deleteRef]
  | opReferenceRef r =>
    by_cases hc : (napi_reference_ref st r.refh).2.1 = NapiStatus.ok <;>
      simp [applyOp, Reference.Ref, hc, liveCallbackData_refRef]
  | opReferenceUnref r =>
    by_cases hc : (napi_reference_unref st r.refh).2.1 = NapiStatus.ok <;>
      simp [applyOp, Reference.Unref, hc, liveCallbackData_refUnref]
  | opReferenceReset r =>
    cases hr : r.refh with
    | none => simp [applyOp, Reference.Reset, hr]
    | some h =>
      by_cases hc : (napi_delete_reference st (some h)).2 = NapiStatus.ok <;>
        simp [applyOp, Reference.Reset, hr, hc, liveCallbackData_deleteRef]
  | opReferenceResetTo r venv v c =>
    cases hr : r.refh with
    | none =>
      cases v with
      | none => simp [applyOp, Reference.ResetTo, Reference.Reset, hr]
      | some hv =>
        simp [applyOp, Reference.ResetTo, Reference.Reset, hr, napi_create_reference]
    | some h =>
      by_cases hc : (napi_delete_reference st (some h)).2 = NapiStatus.ok
      · cases v with
        | none =>
          simp [applyOp, Reference.ResetTo, Reference.Reset, hr, hc,
            liveCallbackData_deleteRef]
        | some hv =>
          simp [applyOp, Reference.ResetTo, Reference.Reset, hr, hc,
            napi_create_reference, liveCallbackData_deleteRef]
      · simp [applyOp, Reference.ResetTo, Reference.Reset, hr, hc]

/-- C9: `CallbackInfo::operator[]` returns the environment's undefined value
without reading the argument array for every index at or above `Length()`,
and returns the marshaled argument at the position for every index in
`[0, Length())`. -/
theorem callbackInfo_index_spec (envp : Option Nat) (rawThis : NapiV)
    (rawArgs : List NapiV) (d : Nat) (index : Int) :
    ((CallbackInfo.ofRaw envp rawThis rawArgs d).Length ≤ index →
      (CallbackInfo.ofRaw envp rawThis rawArgs d).getArg index =
        (some napi_get_undefined, false)) ∧
    (∀ (h0 : 0 ≤ index) (h1 : index.toNat < rawArgs.length),
      (CallbackInfo.ofRaw envp rawThis rawArgs d).getArg index =
        (some (rawArgs.get ⟨index.toNat, h1⟩), true)) := by
  constructor
  · intro hle
    have hnotlt : ¬ index < (rawArgs.length : Int) := not_lt.mpr hle
    simp only [CallbackInfo.getArg, CallbackInfo.ofRaw, if_neg hnotlt]
  · intro h0 h1
    have hlt : index < (rawArgs.length : Int) := by omega
    simp only [CallbackInfo.getArg, CallbackInfo.ofRaw, if_pos hlt]
    rw [argvRead, dif_pos ⟨h0, h1⟩]

/-- C9 witness: with a single marshaled argument, index 5 yields undefined
without an array read and index 0 yields the argument. -/
theorem callbackInfo_index_spec_witness :
    (CallbackInfo.ofRaw (some 0) none [some HVal.nullv] 0).getArg 5 =
        (some napi_get_undefined, false) ∧
      (CallbackInfo.ofRaw (some 0) none [some HVal.nullv] 0).getArg 0 =
        (some (some HVal.nullv), true) := by
  constructor
  · exact (callbackInfo_index_spec (some 0) none [some HVal.nullv] 0 5).1 (by decide)
  · exact (callbackInfo_index_spec (some 0) none [some HVal.nullv] 0 0).2
      (by decide) (by decide)

/-- C10: creating a reference from a null value yields an empty reference
without invoking the root-creation entry point, and `Reset(value, count)`
with a null value releases the prior root (if any) and leaves the reference
empty, again without creating a root. -/
theorem reference_new_null_spec (st : AbiState) (venv : Option Nat) (c : Nat)
    (indet : Bool) (r : Reference) :
    (Reference.New st venv none c indet = (st, ⟨venv, none, indet⟩) ∧
      (Reference.New st venv none c indet).2.IsEmpty = true ∧
      (Reference.New st venv none c indet).1.createRefCalls = st.createRefCalls) ∧
    (∀ h s, r.refh = some h → alookup h st.refs = some s →
      Reference.ResetTo st r venv none c =
          Except.ok ({ st with refs := eraseRef st.refs h },
            { r with envp := venv, refh := none }) ∧
        ({ r with envp := venv, refh := none } : Reference).IsEmpty = true ∧
        ({ st with refs := eraseRef st.refs h } : AbiState).createRefCalls =
          st.createRefCalls) ∧
    (r.refh = none →
      Reference.ResetTo st r venv none c = Except.ok (st, { r with envp := venv }) ∧
        ({ r with envp := venv } : Reference).IsEmpty = true) := by
  refine ⟨⟨rfl, rfl, rfl⟩, ?_, ?_⟩
  · intro h s hr hl
    refine ⟨?_, rfl, rfl⟩
    simp [Reference.ResetTo, Reference.Reset, hr, napi_delete_reference, hl]
  · intro hr
    constructor
    · simp [Reference.ResetTo, Reference.Reset, hr]
    · simp [Reference.IsEmpty, hr]

/-- C10 witness: a null-valued `New` at a concrete state, `ResetTo` with a
null value on a reference holding a live root, and on an empty reference. -/
theorem reference_new_null_spec_witness :
    Reference.New cexState (some 0) none 1 false = (cexState, ⟨some 0, none, false⟩) ∧
      Reference.ResetTo cexState ⟨some 0, some 0, false⟩ (some 0) none 1 =
        Except.ok ({ cexState with refs := eraseRef cexState.refs 0 },
          ⟨some 0, none, false⟩) ∧
      Reference.ResetTo cexState ⟨some 0, none, true⟩ (some 0) none 1 =
        Except.ok (cexState, ⟨some 0, none, true⟩) := by
  refine ⟨(reference_new_null_spec cexState (some 0) 1 false ⟨some 0, none, false⟩).1.1,
    ?_, ?_⟩
  · exact ((reference_new_null_spec cexState (some 0) 1 false
      ⟨some 0, some 0, false⟩).2.1 0 ⟨some (HVal.objv 5), 1⟩ rfl (by decide)).1
  · exact ((reference_new_null_spec cexState (some 0) 1 false
      ⟨some 0, none, true⟩).2.2 rfl).1

end NapiModel
